import Mathlib

/-!
Shallow embedding of `lte/gateway/python/magma/pipelined/rpc_servicer.py`
(the `PipelinedRpcServicer` class together with its module-level helper
functions).  Pure helpers become Lean functions; the stateful handlers become
functions from an environment (the external controller apps, capability
flags and configuration) and an explicit servicer state to a result paired
with a trace of the externally visible side effects (controller dispatches,
version bumps, mapping writes, metric increments).
-/

/-- `RuleModResult.result` values (`SUCCESS` / `FAILURE` of the proto enum). -/
inductive Outcome
  | SUCCESS
  | FAILURE
deriving DecidableEq, Repr

/-- Per-rule result, as in the `RuleModResult` proto message. -/
structure RuleModResult where
  rule_id : String
  result : Outcome
deriving DecidableEq, Repr

/-- `ActivateFlowsResult` proto message: two ordered result lists. -/
structure ActivateFlowsResult where
  static_rule_results : List RuleModResult := []
  dynamic_rule_results : List RuleModResult := []
deriving DecidableEq, Repr

/-- A dynamic `PolicyRule`; only the `id` field is inspected by the servicer. -/
structure PolicyRule where
  id : String
deriving DecidableEq, Repr

/-- `RequestOriginType.type` values; `GX`, `GY` and the 5G `N` origin. -/
inductive OriginType
  | GX
  | GY
  | N
deriving DecidableEq, Repr

/-- An `IPAddress` proto value produced by the address-family converters:
`convert_ipv4_str_to_ip_proto` / `convert_ipv6_bytes_to_ip_proto` (which are
out of scope) are modelled as the tagged identity on the raw payload. -/
inductive IPAddress
  | v4 (addr : String)
  | v6 (addr : String)
deriving DecidableEq, Repr

/-- `AggregatedMaximumBitrate` payload, passed through untouched. -/
abbrev AggregatedMaximumBitrate := Nat

/-- `ActivateFlowsRequest` proto message (the fields the servicer reads). -/
structure ActivateFlowsRequest where
  sid : String
  msisdn : String := ""
  uplink_tunnel : Nat := 0
  downlink_tunnel : Nat := 0
  ip_addr : String := ""
  ipv6_addr : String := ""
  request_origin : OriginType
  rule_ids : List String := []
  dynamic_rules : List PolicyRule := []
  apn_ambr : AggregatedMaximumBitrate := 0
deriving DecidableEq, Repr

/-- `DeactivateFlowsRequest` proto message (the fields the servicer reads). -/
structure DeactivateFlowsRequest where
  sid : String
  ip_addr : String := ""
  ipv6_addr : String := ""
  request_origin : OriginType
  rule_ids : List String := []
  remove_default_drop_flows : Bool := false
deriving DecidableEq, Repr

/-- The controller apps the servicer consults through
`service_manager.is_app_enabled(<App>.APP_NAME)`. -/
inductive App
  | enforcement
  | enforcement_stats
  | ue_mac
  | dpi
  | ipfix
  | check_quota
  | vlan_learn
  | tunnel_learn
deriving DecidableEq, Repr

/-- The controller-app instances holding epoch state and restart entry
points that the servicer dispatches to (`inout_app`, `gy_app`,
`enforcer_app`, `enforcement_stats`, `ue_mac_app`, `check_quota_app`). -/
inductive CtrlGroup
  | inout
  | gy_app
  | enforcer
  | enforcement_stats
  | ue_mac
  | check_quota
deriving DecidableEq, Repr

/-- Externally visible side effects of the servicer, in program order. -/
inductive Event
  | updateVersion (sid : String) (ip : IPAddress) (rule : Option String)
  | statsActivate (imsi msisdn : String) (uplink : Nat) (ip : IPAddress)
      (ambr : AggregatedMaximumBitrate) (static : List String)
      (dyn : List PolicyRule)
  | enfActivate (imsi msisdn : String) (uplink : Nat) (ip : IPAddress)
      (ambr : AggregatedMaximumBitrate) (static : List String)
      (dyn : List PolicyRule)
  | gyActivate (imsi msisdn : String) (uplink : Nat) (ip : IPAddress)
      (ambr : AggregatedMaximumBitrate) (static : List String)
      (dyn : List PolicyRule)
  | statsDeactivateDefault (sid : String) (ip : IPAddress)
  | enfDeactivate (sid : String) (ip : IPAddress) (rule_ids : List String)
  | gyDeactivate (sid : String) (ip : IPAddress) (rule_ids : List String)
  | savePrefix (interface : String) (pfx : String)
  | saveTunnels (up : Nat) (down : Nat)
  | metricStatsFail (rule_id : String) (imsi : String)
  | metricEnfFail (rule_id : String) (imsi : String)
  | handleRestart (g : CtrlGroup)
  | handleRestartPolicy (g : CtrlGroup) (reqs : List ActivateFlowsRequest)
  | getPolicyUsage
  | addUEMac (sid : String) (mac : String)
  | deleteUEMac (sid : String) (mac : String)
  | miscDispatch (name : String) (sid : String)
deriving DecidableEq, Repr

/-- The external collaborators: controller response functions (each
controller's `activate_rules` as a function of its arguments), capability
flags, configuration and the out-of-scope IPv6 derivation helpers. -/
structure Env where
  enabled : App → Bool
  statsController : String → String → Nat → IPAddress →
    AggregatedMaximumBitrate → List String → List PolicyRule →
    ActivateFlowsResult
  enfController : String → String → Nat → IPAddress →
    AggregatedMaximumBitrate → List String → List PolicyRule →
    ActivateFlowsResult
  gyController : String → String → Nat → IPAddress →
    AggregatedMaximumBitrate → List String → List PolicyRule →
    ActivateFlowsResult
  setup_type : String
  getInterfaceId : String → String
  getPrefix : String → String

/-! ### Module-level helper functions (bottom of `rpc_servicer.py`) -/

/-- `_retrieve_failed_results`: the FAILURE entries of each list. -/
def _retrieve_failed_results (activate_flow_result : ActivateFlowsResult) :
    List RuleModResult × List RuleModResult :=
  (activate_flow_result.static_rule_results.filter
      fun result => result.result == Outcome.FAILURE,
   activate_flow_result.dynamic_rule_results.filter
      fun result => result.result == Outcome.FAILURE)

/-- `_filter_failed_static_rule_ids`: requested static ids minus failed ids. -/
def _filter_failed_static_rule_ids (request : ActivateFlowsRequest)
    (failed_results : List RuleModResult) : List String :=
  let failed_static_rule_ids := failed_results.map fun result => result.rule_id
  request.rule_ids.filter fun rule_id => !(failed_static_rule_ids.contains rule_id)

/-- `_filter_failed_dynamic_rules`: requested dynamic rules minus failed ids. -/
def _filter_failed_dynamic_rules (request : ActivateFlowsRequest)
    (failed_results : List RuleModResult) : List PolicyRule :=
  let failed_dynamic_rule_ids := failed_results.map fun result => result.rule_id
  request.dynamic_rules.filter fun rule => !(failed_dynamic_rule_ids.contains rule.id)

/-- `_report_enforcement_failures`: one enforcement-failure metric increment
per non-SUCCESS entry of the chained static+dynamic result lists. -/
def _report_enforcement_failures (activate_flow_result : ActivateFlowsResult)
    (imsi : String) : List Event :=
  ((activate_flow_result.static_rule_results ++
      activate_flow_result.dynamic_rule_results).filter
      fun result => !(result.result == Outcome.SUCCESS)).map
    fun result => Event.metricEnfFail result.rule_id imsi

/-- `_report_enforcement_stats_failures`: one stats-failure metric increment
per non-SUCCESS entry of the chained static+dynamic result lists. -/
def _report_enforcement_stats_failures
    (activate_flow_result : ActivateFlowsResult) (imsi : String) :
    List Event :=
  ((activate_flow_result.static_rule_results ++
      activate_flow_result.dynamic_rule_results).filter
      fun result => !(result.result == Outcome.SUCCESS)).map
    fun result => Event.metricStatsFail result.rule_id imsi

/-! ### Activation pipeline -/

/-- `_update_version`: bump the version of every requested static rule id and
every dynamic rule id for `(sid, ip)`. -/
def _update_version (request : ActivateFlowsRequest) (ipv4 : IPAddress) :
    List Event :=
  (request.rule_ids.map fun rule_id =>
      Event.updateVersion request.sid ipv4 (some rule_id)) ++
  (request.dynamic_rules.map fun rule =>
      Event.updateVersion request.sid ipv4 (some rule.id))

/-- `_activate_rules_in_enforcement_stats`: empty result when the stats app
is disabled, otherwise the stats controller's response plus its failure
metrics. -/
def _activate_rules_in_enforcement_stats (env : Env) (imsi msisdn : String)
    (uplink_tunnel : Nat) (ip_addr : IPAddress)
    (apn_ambr : AggregatedMaximumBitrate) (static_rule_ids : List String)
    (dynamic_rules : List PolicyRule) : ActivateFlowsResult × List Event :=
  if !(env.enabled App.enforcement_stats) then
    ({}, [])
  else
    let enforcement_stats_res :=
      env.statsController imsi msisdn uplink_tunnel ip_addr apn_ambr
        static_rule_ids dynamic_rules
    (enforcement_stats_res,
     Event.statsActivate imsi msisdn uplink_tunnel ip_addr apn_ambr
        static_rule_ids dynamic_rules ::
      _report_enforcement_stats_failures enforcement_stats_res imsi)

/-- `_activate_rules_in_enforcement`: the enforcement controller's response
plus its failure metrics. -/
def _activate_rules_in_enforcement (env : Env) (imsi msisdn : String)
    (uplink_tunnel : Nat) (ip_addr : IPAddress)
    (apn_ambr : AggregatedMaximumBitrate) (static_rule_ids : List String)
    (dynamic_rules : List PolicyRule) : ActivateFlowsResult × List Event :=
  let enforcement_res :=
    env.enfController imsi msisdn uplink_tunnel ip_addr apn_ambr
      static_rule_ids dynamic_rules
  (enforcement_res,
   Event.enfActivate imsi msisdn uplink_tunnel ip_addr apn_ambr
      static_rule_ids dynamic_rules ::
    _report_enforcement_failures enforcement_res imsi)

/-- `_activate_rules_in_gy`: the gy controller's response; the source has
`TODO: add metrics`, so no metric events are emitted. -/
def _activate_rules_in_gy (env : Env) (imsi msisdn : String)
    (uplink_tunnel : Nat) (ip_addr : IPAddress)
    (apn_ambr : AggregatedMaximumBitrate) (static_rule_ids : List String)
    (dynamic_rules : List PolicyRule) : ActivateFlowsResult × List Event :=
  let gy_res :=
    env.gyController imsi msisdn uplink_tunnel ip_addr apn_ambr
      static_rule_ids dynamic_rules
  (gy_res,
   [Event.gyActivate imsi msisdn uplink_tunnel ip_addr apn_ambr
      static_rule_ids dynamic_rules])

/-- `_install_flows_gx`: bump versions, run the stats stage, filter out the
rules it failed, run enforcement on the filtered set, and append the stats
failures to enforcement's response. -/
def _install_flows_gx (env : Env) (request : ActivateFlowsRequest)
    (ip_address : IPAddress) : ActivateFlowsResult × List Event :=
  let vEvents := _update_version request ip_address
  let stats := _activate_rules_in_enforcement_stats env request.sid
    request.msisdn request.uplink_tunnel ip_address request.apn_ambr
    request.rule_ids request.dynamic_rules
  let failed := _retrieve_failed_results stats.1
  let static_rule_ids := _filter_failed_static_rule_ids request failed.1
  let dynamic_rules := _filter_failed_dynamic_rules request failed.2
  let enf := _activate_rules_in_enforcement env request.sid request.msisdn
    request.uplink_tunnel ip_address request.apn_ambr static_rule_ids
    dynamic_rules
  ({ static_rule_results := enf.1.static_rule_results ++ failed.1,
     dynamic_rule_results := enf.1.dynamic_rule_results ++ failed.2 },
   vEvents ++ stats.2 ++ enf.2)

/-- `_install_flows_gy`: same pipeline with the gy controller downstream. -/
def _install_flows_gy (env : Env) (request : ActivateFlowsRequest)
    (ip_address : IPAddress) : ActivateFlowsResult × List Event :=
  let vEvents := _update_version request ip_address
  let stats := _activate_rules_in_enforcement_stats env request.sid
    request.msisdn request.uplink_tunnel ip_address request.apn_ambr
    request.rule_ids request.dynamic_rules
  let failed := _retrieve_failed_results stats.1
  let static_rule_ids := _filter_failed_static_rule_ids request failed.1
  let dynamic_rules := _filter_failed_dynamic_rules request failed.2
  let gy := _activate_rules_in_gy env request.sid request.msisdn
    request.uplink_tunnel ip_address request.apn_ambr static_rule_ids
    dynamic_rules
  ({ static_rule_results := gy.1.static_rule_results ++ failed.1,
     dynamic_rule_results := gy.1.dynamic_rule_results ++ failed.2 },
   vEvents ++ stats.2 ++ gy.2)

/-- The per-family dispatch on `request_origin.type` shared by
`_activate_flows`: `GX` goes to `_install_flows_gx`, any other origin to
`_install_flows_gy`. -/
def _install_flows (env : Env) (request : ActivateFlowsRequest)
    (ip_address : IPAddress) : ActivateFlowsResult × List Event :=
  match request.request_origin with
  | OriginType.GX => _install_flows_gx env request ip_address
  | _ => _install_flows_gy env request ip_address

/-- `_update_ipv6_prefix_store`: derive the interface id and prefix of the
IPv6 address and save the mapping. -/
def _update_ipv6_prefix_store (env : Env) (ipv6_addr : String) : Event :=
  Event.savePrefix (env.getInterfaceId ipv6_addr) (env.getPrefix ipv6_addr)

/-- `_activate_flows`: process the IPv4 family (when `setup_type` is CWF or
an IPv4 address is present), then the IPv6 family (when present, also
writing the prefix mapping first), extending the result lists of the
response; finally record the tunnel mapping when both tunnel ids are set. -/
def _activate_flows (env : Env) (request : ActivateFlowsRequest) :
    ActivateFlowsResult × List Event :=
  let ipv4Part :=
    if env.setup_type == "CWF" || !(request.ip_addr == "") then
      _install_flows env request (IPAddress.v4 request.ip_addr)
    else ({}, [])
  let ipv6Part :=
    if !(request.ipv6_addr == "") then
      let inner := _install_flows env request (IPAddress.v6 request.ipv6_addr)
      (inner.1, _update_ipv6_prefix_store env request.ipv6_addr :: inner.2)
    else ({}, [])
  let tunnelEvents :=
    if !(request.uplink_tunnel == 0) && !(request.downlink_tunnel == 0) then
      [Event.saveTunnels request.uplink_tunnel request.downlink_tunnel]
    else []
  ({ static_rule_results :=
       ipv4Part.1.static_rule_results ++ ipv6Part.1.static_rule_results,
     dynamic_rule_results :=
       ipv4Part.1.dynamic_rule_results ++ ipv6Part.1.dynamic_rule_results },
   ipv4Part.2 ++ ipv6Part.2 ++ tunnelEvents)

/-! ### Epoch guard and setup handlers -/

/-- Modelled from the spec: the per-controller-group epoch state of
`check_setup_request_epoch`, which lives in the controller apps and is not
part of `rpc_servicer.py`.  `lastEpoch` is the last accepted epoch (none at
process start), `lastResult` the last known setup result code for the
group. -/
structure GroupState where
  lastEpoch : Option Nat := none
  lastResult : Nat := 0
deriving DecidableEq, Repr

/-- Modelled from the spec: `controller.check_setup_request_epoch(epoch)`
(Epoch Guard, spec section 4.1).  If the supplied epoch is not strictly newer
than the last accepted epoch it returns the last known result and leaves the
state untouched; otherwise it records the new epoch and returns nothing,
authorizing mutation. -/
def check_setup_request_epoch (epoch : Nat) (st : GroupState) :
    Option Nat × GroupState :=
  match st.lastEpoch with
  | none => (none, { st with lastEpoch := some epoch })
  | some last =>
      if last < epoch then (none, { st with lastEpoch := some epoch })
      else (some st.lastResult, st)

/-- The mutable state reachable from the servicer: each group's epoch
state. -/
structure ServicerState where
  groups : CtrlGroup → GroupState

/-- Update one group's epoch state. -/
def ServicerState.setGroup (st : ServicerState) (g : CtrlGroup)
    (gst : GroupState) : ServicerState :=
  ⟨fun g' => if g' = g then gst else st.groups g'⟩

/-- The epoch-check loop of `SetupPolicyFlows` (`for controller in [...]`):
check each group in order, record accepted epochs, and stop at the first
fenced rejection. -/
def checkEpochLoop (epoch : Nat) (gs : List CtrlGroup) (st : ServicerState) :
    Option Nat × ServicerState :=
  match gs with
  | [] => (none, st)
  | g :: rest =>
      let c := check_setup_request_epoch epoch (st.groups g)
      let st' := st.setGroup g c.2
      match c.1 with
      | some ret => (some ret, st')
      | none => checkEpochLoop epoch rest st'

/-- `SetupFlowsResult` proto message (result code only). -/
structure SetupFlowsResult where
  result : Nat := 0
deriving DecidableEq, Repr

/-- `SetupPolicyRequest` proto message: an epoch and activation-shaped
sub-requests. -/
structure SetupPolicyRequest where
  epoch : Nat
  requests : List ActivateFlowsRequest := []
deriving DecidableEq, Repr

/-- A setup request carrying only an epoch (`SetupDefaultRequest`). -/
structure SetupDefaultRequest where
  epoch : Nat
deriving DecidableEq, Repr

/-- gRPC status codes the servicer sets (OK meaning none was set). -/
inductive RpcStatus
  | OK
  | UNAVAILABLE
  | INVALID_ARGUMENT
deriving DecidableEq, Repr

/-- Outcome of one RPC handler: optional response, status, trace, new
state. -/
structure RpcOut (α : Type) where
  response : Option α
  status : RpcStatus
  trace : List Event
  state : ServicerState

/-- `SetupDefaultControllers`: check the inout app's epoch; if fenced return
that result, otherwise dispatch `handle_restart(None)` on the inout app.
The handler performs no capability check.  The inout app's restart result is
modelled as the group's `lastResult` after acceptance. -/
def SetupDefaultControllers (st : ServicerState) (request : SetupDefaultRequest) :
    RpcOut SetupFlowsResult :=
  let c := check_setup_request_epoch request.epoch (st.groups CtrlGroup.inout)
  let st' := st.setGroup CtrlGroup.inout c.2
  match c.1 with
  | some ret => { response := some { result := ret }, status := RpcStatus.OK,
                  trace := [], state := st' }
  | none => { response := some { result := (st'.groups CtrlGroup.inout).lastResult },
              status := RpcStatus.OK,
              trace := [Event.handleRestart CtrlGroup.inout], state := st' }

/-- `_setup_flows`: partition the sub-requests by origin and replay each
partition through the restart-reconciliation entry point of the enforcement,
gy and stats apps (in that order). -/
def _setup_flows (request : SetupPolicyRequest) : List Event :=
  let gx_reqs := request.requests.filter
    fun req => req.request_origin == OriginType.GX
  let gy_reqs := request.requests.filter
    fun req => req.request_origin == OriginType.GY
  [Event.handleRestartPolicy CtrlGroup.enforcer gx_reqs,
   Event.handleRestartPolicy CtrlGroup.gy_app gy_reqs,
   Event.handleRestartPolicy CtrlGroup.enforcement_stats gx_reqs]

/-- The order in which `SetupPolicyFlows` consults the controller groups
(`for controller in [self._gy_app, self._enforcer_app,
self._enforcement_stats]`). -/
def policyPipeline : List CtrlGroup :=
  [CtrlGroup.gy_app, CtrlGroup.enforcer, CtrlGroup.enforcement_stats]

/-- `SetupPolicyFlows`: reject when the enforcement app is disabled; check
the epoch of the gy, enforcement and stats groups in order, returning a
`SetupFlowsResult` from the first fenced rejection; otherwise dispatch
`_setup_flows`. -/
def SetupPolicyFlows (env : Env) (st : ServicerState)
    (request : SetupPolicyRequest) : RpcOut SetupFlowsResult :=
  if !(env.enabled App.enforcement) then
    { response := none, status := RpcStatus.UNAVAILABLE, trace := [],
      state := st }
  else
    let c := checkEpochLoop request.epoch policyPipeline st
    match c.1 with
    | some ret => { response := some { result := ret }, status := RpcStatus.OK,
                    trace := [], state := c.2 }
    | none => { response := some { result := (c.2.groups CtrlGroup.enforcer).lastResult },
                status := RpcStatus.OK, trace := _setup_flows request,
                state := c.2 }

/-! ### Activate / Deactivate / usage handlers -/

/-- `FlowResponse` proto message (no field inspected by the servicer). -/
structure FlowResponse where
  ok : Bool := true
deriving DecidableEq, Repr

/-- `DeactivateFlowsResult` proto message. -/
structure DeactivateFlowsResult where
  ok : Bool := true
deriving DecidableEq, Repr

/-- `ActivateFlows`: reject when the enforcement app is disabled, otherwise
run `_activate_flows` on the serialized execution context and return its
result. -/
def ActivateFlows (env : Env) (st : ServicerState)
    (request : ActivateFlowsRequest) : RpcOut ActivateFlowsResult :=
  if !(env.enabled App.enforcement) then
    { response := none, status := RpcStatus.UNAVAILABLE, trace := [],
      state := st }
  else
    let r := _activate_flows env request
    { response := some r.1, status := RpcStatus.OK, trace := r.2, state := st }

/-- `_deactivate_flows_gx`: bump versions for the named rules, or the
session wildcard when none are named; optionally remove the stats default
flow; then deactivate the rules in the enforcement app. -/
def _deactivate_flows_gx (request : DeactivateFlowsRequest)
    (ip_address : IPAddress) : List Event :=
  (if !(request.rule_ids == []) then
     request.rule_ids.map fun rule_id =>
       Event.updateVersion request.sid ip_address (some rule_id)
   else
     [Event.updateVersion request.sid ip_address none]) ++
  (if request.remove_default_drop_flows then
     [Event.statsDeactivateDefault request.sid ip_address]
   else []) ++
  [Event.enfDeactivate request.sid ip_address request.rule_ids]

/-- `_deactivate_flows_gy`: bump versions only for explicitly named rules
("Only deactivate requested rules here to not affect GX"), then deactivate
in the gy app. -/
def _deactivate_flows_gy (request : DeactivateFlowsRequest)
    (ip_address : IPAddress) : List Event :=
  (if !(request.rule_ids == []) then
     request.rule_ids.map fun rule_id =>
       Event.updateVersion request.sid ip_address (some rule_id)
   else []) ++
  [Event.gyDeactivate request.sid ip_address request.rule_ids]

/-- `_deactivate_flows`: per-family dispatch mirroring `_activate_flows`,
writing the IPv6 prefix mapping before processing the IPv6 family. -/
def _deactivate_flows (env : Env) (request : DeactivateFlowsRequest) :
    List Event :=
  (if env.setup_type == "CWF" || !(request.ip_addr == "") then
     match request.request_origin with
     | OriginType.GX => _deactivate_flows_gx request (IPAddress.v4 request.ip_addr)
     | _ => _deactivate_flows_gy request (IPAddress.v4 request.ip_addr)
   else []) ++
  (if !(request.ipv6_addr == "") then
     _update_ipv6_prefix_store env request.ipv6_addr ::
       (match request.request_origin with
        | OriginType.GX => _deactivate_flows_gx request (IPAddress.v6 request.ipv6_addr)
        | _ => _deactivate_flows_gy request (IPAddress.v6 request.ipv6_addr))
   else [])

/-- `DeactivateFlows`: reject when the enforcement app is disabled,
otherwise post `_deactivate_flows` and immediately return an empty
`DeactivateFlowsResult` (fire and forget). -/
def DeactivateFlows (env : Env) (st : ServicerState)
    (request : DeactivateFlowsRequest) : RpcOut DeactivateFlowsResult :=
  if !(env.enabled App.enforcement) then
    { response := none, status := RpcStatus.UNAVAILABLE, trace := [],
      state := st }
  else
    { response := some {}, status := RpcStatus.OK,
      trace := _deactivate_flows env request, state := st }

/-- `GetPolicyUsage`: reject when the stats app is disabled, otherwise
retrieve the usage snapshot from the stats app. -/
def GetPolicyUsage (env : Env) (st : ServicerState) : RpcOut Unit :=
  if !(env.enabled App.enforcement_stats) then
    { response := none, status := RpcStatus.UNAVAILABLE, trace := [],
      state := st }
  else
    { response := some (), status := RpcStatus.OK,
      trace := [Event.getPolicyUsage], state := st }

/-! ### IPFIX / DPI / UE MAC / quota handlers -/

/-- `UpdateIPFIXFlowRequest` fields used by the servicer. -/
structure UpdateIPFIXFlowRequest where
  sid : String
deriving DecidableEq, Repr

/-- `UpdateIPFIXFlow`: when the IPFIX app is enabled, post the sample-flow
install; in both cases return a `FlowResponse` without setting any error
status. -/
def UpdateIPFIXFlow (env : Env) (st : ServicerState)
    (request : UpdateIPFIXFlowRequest) : RpcOut FlowResponse :=
  { response := some {},
    status := RpcStatus.OK,
    trace := if env.enabled App.ipfix then
        [Event.miscDispatch "add_ue_sample_flow" request.sid]
      else [],
    state := st }

/-- A DPI flow request (payload opaque to the servicer). -/
structure DPIRequest where
  payload : String
deriving DecidableEq, Repr

/-- `CreateFlow`: reject when the DPI app is disabled, otherwise post
`add_classify_flow`. -/
def CreateFlow (env : Env) (st : ServicerState) (request : DPIRequest) :
    RpcOut FlowResponse :=
  if !(env.enabled App.dpi) then
    { response := none, status := RpcStatus.UNAVAILABLE, trace := [],
      state := st }
  else
    { response := some {}, status := RpcStatus.OK,
      trace := [Event.miscDispatch "add_classify_flow" request.payload],
      state := st }

/-- `RemoveFlow`: reject when the DPI app is disabled, otherwise post
`remove_classify_flow`. -/
def RemoveFlow (env : Env) (st : ServicerState) (request : DPIRequest) :
    RpcOut FlowResponse :=
  if !(env.enabled App.dpi) then
    { response := none, status := RpcStatus.UNAVAILABLE, trace := [],
      state := st }
  else
    { response := some {}, status := RpcStatus.OK,
      trace := [Event.miscDispatch "remove_classify_flow" request.payload],
      state := st }

/-- `UpdateFlowStats`: reject when the DPI app is disabled, otherwise return
an empty response (no dispatch in the source). -/
def UpdateFlowStats (env : Env) (st : ServicerState) (request : DPIRequest) :
    RpcOut FlowResponse :=
  if !(env.enabled App.dpi) then
    { response := none, status := RpcStatus.UNAVAILABLE, trace := [],
      state := st }
  else
    { response := some {}, status := RpcStatus.OK, trace := [], state := st }

/-- One attached-UE entry of a `SetupUEMacRequest`. -/
structure UEMacEntry where
  sid : String
deriving DecidableEq, Repr

/-- `SetupUEMacRequest` proto message. -/
structure SetupUEMacRequest where
  epoch : Nat
  requests : List UEMacEntry := []
deriving DecidableEq, Repr

/-- `SetupUEMacFlows`: capability check, then the UE MAC app's epoch check,
then `_setup_ue_mac`: restart the UE MAC app and, when IPFIX is enabled,
post one sample-flow install per attached UE. -/
def SetupUEMacFlows (env : Env) (st : ServicerState)
    (request : SetupUEMacRequest) : RpcOut SetupFlowsResult :=
  if !(env.enabled App.ue_mac) then
    { response := none, status := RpcStatus.UNAVAILABLE, trace := [],
      state := st }
  else
    let c := check_setup_request_epoch request.epoch (st.groups CtrlGroup.ue_mac)
    let st' := st.setGroup CtrlGroup.ue_mac c.2
    match c.1 with
    | some ret => { response := some { result := ret }, status := RpcStatus.OK,
                    trace := [], state := st' }
    | none =>
        { response := some { result := (st'.groups CtrlGroup.ue_mac).lastResult },
          status := RpcStatus.OK,
          trace := Event.handleRestart CtrlGroup.ue_mac ::
            (if env.enabled App.ipfix then
               request.requests.map fun req =>
                 Event.miscDispatch "add_ue_sample_flow" req.sid
             else []),
          state := st' }

/-- A UE MAC (dis)association request. -/
structure UEMacFlowRequest where
  sid : String
  mac_addr : String
deriving DecidableEq, Repr

/-- `AddUEMacFlow`: capability check, then the 17-character MAC validation
(12 hex characters + 5 colons), then post `add_ue_mac_flow`. -/
def AddUEMacFlow (env : Env) (st : ServicerState)
    (request : UEMacFlowRequest) : RpcOut FlowResponse :=
  if !(env.enabled App.ue_mac) then
    { response := none, status := RpcStatus.UNAVAILABLE, trace := [],
      state := st }
  else if !(request.mac_addr.length == 17) then
    { response := none, status := RpcStatus.INVALID_ARGUMENT, trace := [],
      state := st }
  else
    { response := some {}, status := RpcStatus.OK,
      trace := [Event.addUEMac request.sid request.mac_addr], state := st }

/-- `DeleteUEMacFlow`: capability check, then the 17-character MAC
validation, then post the deletion and the conditional per-app cleanup
dispatches. -/
def DeleteUEMacFlow (env : Env) (st : ServicerState)
    (request : UEMacFlowRequest) : RpcOut FlowResponse :=
  if !(env.enabled App.ue_mac) then
    { response := none, status := RpcStatus.UNAVAILABLE, trace := [],
      state := st }
  else if !(request.mac_addr.length == 17) then
    { response := none, status := RpcStatus.INVALID_ARGUMENT, trace := [],
      state := st }
  else
    { response := some {}, status := RpcStatus.OK,
      trace :=
        Event.deleteUEMac request.sid request.mac_addr ::
        ((if env.enabled App.check_quota then
            [Event.miscDispatch "remove_subscriber_flow_quota" request.sid]
          else []) ++
         (if env.enabled App.vlan_learn then
            [Event.miscDispatch "remove_subscriber_flow_vlan" request.sid]
          else []) ++
         (if env.enabled App.tunnel_learn then
            [Event.miscDispatch "remove_subscriber_flow_tunnel" request.mac_addr]
          else []) ++
         (if env.enabled App.ipfix then
            [Event.miscDispatch "delete_ue_sample_flow" request.sid]
          else [])),
      state := st }

/-- `SetupQuotaRequest` proto message (payload beyond the epoch opaque). -/
structure SetupQuotaRequest where
  epoch : Nat
deriving DecidableEq, Repr

/-- `SetupQuotaFlows`: capability check, then the quota app's epoch check,
then restart the quota app. -/
def SetupQuotaFlows (env : Env) (st : ServicerState)
    (request : SetupQuotaRequest) : RpcOut SetupFlowsResult :=
  if !(env.enabled App.check_quota) then
    { response := none, status := RpcStatus.UNAVAILABLE, trace := [],
      state := st }
  else
    let c := check_setup_request_epoch request.epoch
      (st.groups CtrlGroup.check_quota)
    let st' := st.setGroup CtrlGroup.check_quota c.2
    match c.1 with
    | some ret => { response := some { result := ret }, status := RpcStatus.OK,
                    trace := [], state := st' }
    | none =>
        { response := some { result := (st'.groups CtrlGroup.check_quota).lastResult },
          status := RpcStatus.OK,
          trace := [Event.handleRestart CtrlGroup.check_quota], state := st' }

/-- A subscriber-quota-state update request (payload opaque). -/
structure QuotaUpdateRequest where
  payload : String
deriving DecidableEq, Repr

/-- `UpdateSubscriberQuotaState`: capability check, then post the state
update. -/
def UpdateSubscriberQuotaState (env : Env) (st : ServicerState)
    (request : QuotaUpdateRequest) : RpcOut FlowResponse :=
  if !(env.enabled App.check_quota) then
    { response := none, status := RpcStatus.UNAVAILABLE, trace := [],
      state := st }
  else
    { response := some {}, status := RpcStatus.OK,
      trace := [Event.miscDispatch "update_subscriber_quota_state" request.payload],
      state := st }

/-- `GetAllTableAssignments`: read-only introspection of the service
manager's table assignments; no capability check, no dispatch. -/
def GetAllTableAssignments (st : ServicerState) : RpcOut Unit :=
  { response := some (), status := RpcStatus.OK, trace := [], state := st }

/-! ### The operations exposed by the servicer -/

/-- One inbound RPC, paired with its request. -/
inductive Op
  | setupDefaultControllers (req : SetupDefaultRequest)
  | setupPolicyFlows (req : SetupPolicyRequest)
  | activateFlows (req : ActivateFlowsRequest)
  | deactivateFlows (req : DeactivateFlowsRequest)
  | getPolicyUsage
  | updateIPFIXFlow (req : UpdateIPFIXFlowRequest)
  | createFlow (req : DPIRequest)
  | removeFlow (req : DPIRequest)
  | updateFlowStats (req : DPIRequest)
  | setupUEMacFlows (req : SetupUEMacRequest)
  | addUEMacFlow (req : UEMacFlowRequest)
  | deleteUEMacFlow (req : UEMacFlowRequest)
  | setupQuotaFlows (req : SetupQuotaRequest)
  | updateSubscriberQuotaState (req : QuotaUpdateRequest)
  | getAllTableAssignments

/-- Status, trace and final state of an `RpcOut`, uniformly over response
types. -/
def RpcOut.summary {α : Type} (o : RpcOut α) :
    RpcStatus × List Event × ServicerState :=
  (o.status, o.trace, o.state)

/-- Dispatch one operation to its handler, keeping status, trace and state. -/
def handleOp (env : Env) (st : ServicerState) :
    Op → RpcStatus × List Event × ServicerState
  | Op.setupDefaultControllers req => (SetupDefaultControllers st req).summary
  | Op.setupPolicyFlows req => (SetupPolicyFlows env st req).summary
  | Op.activateFlows req => (ActivateFlows env st req).summary
  | Op.deactivateFlows req => (DeactivateFlows env st req).summary
  | Op.getPolicyUsage => (GetPolicyUsage env st).summary
  | Op.updateIPFIXFlow req => (UpdateIPFIXFlow env st req).summary
  | Op.createFlow req => (CreateFlow env st req).summary
  | Op.removeFlow req => (RemoveFlow env st req).summary
  | Op.updateFlowStats req => (UpdateFlowStats env st req).summary
  | Op.setupUEMacFlows req => (SetupUEMacFlows env st req).summary
  | Op.addUEMacFlow req => (AddUEMacFlow env st req).summary
  | Op.deleteUEMacFlow req => (DeleteUEMacFlow env st req).summary
  | Op.setupQuotaFlows req => (SetupQuotaFlows env st req).summary
  | Op.updateSubscriberQuotaState req => (UpdateSubscriberQuotaState env st req).summary
  | Op.getAllTableAssignments => (GetAllTableAssignments st).summary

/-! ### Derived views of the activation pipeline

These name the intermediate values of `_install_flows_gx` / `_install_flows_gy`
(the let-bound subexpressions of the source), so that theorems can speak
about the stats-stage outcome, the filtered rule set passed downstream, and
the downstream outcome. -/

/-- The stats-stage outcome of one per-family activation. -/
def stats_stage_result (env : Env) (request : ActivateFlowsRequest)
    (ip : IPAddress) : ActivateFlowsResult :=
  (_activate_rules_in_enforcement_stats env request.sid request.msisdn
    request.uplink_tunnel ip request.apn_ambr request.rule_ids
    request.dynamic_rules).1

/-- The stats-stage trace of one per-family activation. -/
def stats_stage_trace (env : Env) (request : ActivateFlowsRequest)
    (ip : IPAddress) : List Event :=
  (_activate_rules_in_enforcement_stats env request.sid request.msisdn
    request.uplink_tunnel ip request.apn_ambr request.rule_ids
    request.dynamic_rules).2

/-- The static-rule FAILURE entries of the stats stage. -/
def stats_failed_static (env : Env) (request : ActivateFlowsRequest)
    (ip : IPAddress) : List RuleModResult :=
  (_retrieve_failed_results (stats_stage_result env request ip)).1

/-- The dynamic-rule FAILURE entries of the stats stage. -/
def stats_failed_dynamic (env : Env) (request : ActivateFlowsRequest)
    (ip : IPAddress) : List RuleModResult :=
  (_retrieve_failed_results (stats_stage_result env request ip)).2

/-- The static rule ids passed to the downstream controller. -/
def passed_static_rule_ids (env : Env) (request : ActivateFlowsRequest)
    (ip : IPAddress) : List String :=
  _filter_failed_static_rule_ids request (stats_failed_static env request ip)

/-- The dynamic rules passed to the downstream controller. -/
def passed_dynamic_rules (env : Env) (request : ActivateFlowsRequest)
    (ip : IPAddress) : List PolicyRule :=
  _filter_failed_dynamic_rules request (stats_failed_dynamic env request ip)

/-- The downstream-controller outcome of one per-family activation
(enforcement for GX origin, gy for any other origin). -/
def downstream_result (env : Env) (request : ActivateFlowsRequest)
    (ip : IPAddress) : ActivateFlowsResult :=
  match request.request_origin with
  | OriginType.GX =>
      (_activate_rules_in_enforcement env request.sid request.msisdn
        request.uplink_tunnel ip request.apn_ambr
        (passed_static_rule_ids env request ip)
        (passed_dynamic_rules env request ip)).1
  | _ =>
      (_activate_rules_in_gy env request.sid request.msisdn
        request.uplink_tunnel ip request.apn_ambr
        (passed_static_rule_ids env request ip)
        (passed_dynamic_rules env request ip)).1

/-- The downstream-controller stage trace of one per-family activation. -/
def downstream_trace (env : Env) (request : ActivateFlowsRequest)
    (ip : IPAddress) : List Event :=
  match request.request_origin with
  | OriginType.GX =>
      (_activate_rules_in_enforcement env request.sid request.msisdn
        request.uplink_tunnel ip request.apn_ambr
        (passed_static_rule_ids env request ip)
        (passed_dynamic_rules env request ip)).2
  | _ =>
      (_activate_rules_in_gy env request.sid request.msisdn
        request.uplink_tunnel ip request.apn_ambr
        (passed_static_rule_ids env request ip)
        (passed_dynamic_rules env request ip)).2

/-! ### Event discriminators -/

/-- Is this event an `activate_rules` dispatch to the stats controller? -/
def Event.isStatsActivate : Event → Bool
  | Event.statsActivate .. => true
  | _ => false

/-- Is this event an `activate_rules` dispatch to a downstream
(enforcement or gy) controller? -/
def Event.isDownstreamActivate : Event → Bool
  | Event.enfActivate .. => true
  | Event.gyActivate .. => true
  | _ => false

/-- Is this event a version bump? -/
def Event.isVersionBump : Event → Bool
  | Event.updateVersion .. => true
  | _ => false

/-- Is this event a failure-metric increment (either counter)? -/
def Event.isFailureMetric : Event → Bool
  | Event.metricStatsFail .. => true
  | Event.metricEnfFail .. => true
  | _ => false

/-- Does the Epoch Guard fence this epoch against this group state
(`check_setup_request_epoch` returns a non-`None` result)? -/
def fencedAt (epoch : Nat) (gst : GroupState) : Bool :=
  match gst.lastEpoch with
  | none => false
  | some last => !(last < epoch)

/-- The capability an operation checks and rejects on before doing any
work, read off the first lines of each handler.  `SetupDefaultControllers`
and `GetAllTableAssignments` check no capability; `UpdateIPFIXFlow` checks
one but does not reject on it. -/
def gatedApp : Op → Option App
  | Op.setupDefaultControllers _ => none
  | Op.setupPolicyFlows _ => some App.enforcement
  | Op.activateFlows _ => some App.enforcement
  | Op.deactivateFlows _ => some App.enforcement
  | Op.getPolicyUsage => some App.enforcement_stats
  | Op.updateIPFIXFlow _ => none
  | Op.createFlow _ => some App.dpi
  | Op.removeFlow _ => some App.dpi
  | Op.updateFlowStats _ => some App.dpi
  | Op.setupUEMacFlows _ => some App.ue_mac
  | Op.addUEMacFlow _ => some App.ue_mac
  | Op.deleteUEMacFlow _ => some App.ue_mac
  | Op.setupQuotaFlows _ => some App.check_quota
  | Op.updateSubscriberQuotaState _ => some App.check_quota
  | Op.getAllTableAssignments => none

/-! ### Concrete test fixtures for witnesses and counterexamples -/

/-- A controller double that reports SUCCESS for every rule it is given. -/
def allSuccess : String → String → Nat → IPAddress →
    AggregatedMaximumBitrate → List String → List PolicyRule →
    ActivateFlowsResult :=
  fun _ _ _ _ _ static dyn =>
    { static_rule_results :=
        static.map fun i => { rule_id := i, result := Outcome.SUCCESS },
      dynamic_rule_results :=
        dyn.map fun r => { rule_id := r.id, result := Outcome.SUCCESS } }

/-- A controller double that reports FAILURE for every rule it is given. -/
def allFailure : String → String → Nat → IPAddress →
    AggregatedMaximumBitrate → List String → List PolicyRule →
    ActivateFlowsResult :=
  fun _ _ _ _ _ static dyn =>
    { static_rule_results :=
        static.map fun i => { rule_id := i, result := Outcome.FAILURE },
      dynamic_rule_results :=
        dyn.map fun r => { rule_id := r.id, result := Outcome.FAILURE } }

/-- A stats double that fails exactly the rule named `ruleB`. -/
def failRuleB : String → String → Nat → IPAddress →
    AggregatedMaximumBitrate → List String → List PolicyRule →
    ActivateFlowsResult :=
  fun _ _ _ _ _ static dyn =>
    { static_rule_results :=
        static.map fun i =>
          { rule_id := i,
            result := if i == "ruleB" then Outcome.FAILURE
              else Outcome.SUCCESS },
      dynamic_rule_results :=
        dyn.map fun r => { rule_id := r.id, result := Outcome.SUCCESS } }

/-- Baseline deployment: everything enabled, all controllers succeed. -/
def env0 : Env :=
  { enabled := fun _ => true,
    statsController := allSuccess,
    enfController := allSuccess,
    gyController := allSuccess,
    setup_type := "LTE",
    getInterfaceId := fun s => s ++ "/iface",
    getPrefix := fun s => s ++ "/64" }

/-- Deployment where the stats double fails rule `ruleB`. -/
def envStatsFailB : Env := { env0 with statsController := failRuleB }

/-- Deployment with every capability disabled. -/
def envAllDisabled : Env := { env0 with enabled := fun _ => false }

/-- Deployment with the stats app disabled and a gy controller that fails
every rule. -/
def envGyFail : Env :=
  { env0 with
    enabled := fun a => !(a == App.enforcement_stats),
    gyController := allFailure }

/-- Fresh servicer state: no epoch accepted yet, zero last results. -/
def st0 : ServicerState := ⟨fun _ => {}⟩

/-- A state whose gy group last accepted epoch 1 (result 7) and whose
enforcement group last accepted epoch 5 (result 9). -/
def stFence : ServicerState :=
  ⟨fun g =>
    match g with
    | CtrlGroup.gy_app => { lastEpoch := some 1, lastResult := 7 }
    | CtrlGroup.enforcer => { lastEpoch := some 5, lastResult := 9 }
    | _ => {}⟩

/-- GX activation of static rules `ruleA`, `ruleB` over IPv4. -/
def reqGxAB : ActivateFlowsRequest :=
  { sid := "IMSI001", ip_addr := "10.0.0.5",
    request_origin := OriginType.GX, rule_ids := ["ruleA", "ruleB"] }

/-- GY activation of static rule `ruleA` over IPv4. -/
def reqGyA : ActivateFlowsRequest :=
  { sid := "IMSI001", ip_addr := "10.0.0.5",
    request_origin := OriginType.GY, rule_ids := ["ruleA"] }

/-- Dual-stack GX activation. -/
def reqDual : ActivateFlowsRequest :=
  { sid := "IMSI001", ip_addr := "10.0.0.5", ipv6_addr := "fe80::1:0:0:1",
    request_origin := OriginType.GX, rule_ids := ["ruleA"] }

/-- GY wildcard deactivation (no rule ids) over IPv4. -/
def reqGyDeactWild : DeactivateFlowsRequest :=
  { sid := "IMSI001", ip_addr := "10.0.0.5",
    request_origin := OriginType.GY }

/-- GX wildcard deactivation (no rule ids) over IPv4. -/
def reqGxDeactWild : DeactivateFlowsRequest :=
  { sid := "IMSI001", ip_addr := "10.0.0.5",
    request_origin := OriginType.GX }

/-- GY deactivation carrying an IPv6 address and one named rule. -/
def reqDeactV6 : DeactivateFlowsRequest :=
  { sid := "IMSI001", ipv6_addr := "fe80::1:0:0:1",
    request_origin := OriginType.GY, rule_ids := ["ruleA"] }

/-- A policy setup request with epoch 3 and no sub-requests. -/
def reqSetup3 : SetupPolicyRequest := { epoch := 3 }

/-- A MAC association request with a malformed (5-character) address. -/
def reqMacBad : UEMacFlowRequest := { sid := "IMSI001", mac_addr := "aa:bb" }

/-- A MAC association request with a well-formed 17-character address. -/
def reqMacGood : UEMacFlowRequest :=
  { sid := "IMSI001", mac_addr := "01:23:45:67:89:ab" }

/-! ### Shared helper lemmas -/

/-- `_install_flows` merges the downstream outcome with the stats-stage
failures (the final `extend` calls of `_install_flows_gx` / `_gy`). -/
theorem install_flows_result_eq (env : Env) (request : ActivateFlowsRequest)
    (ip : IPAddress) :
    (_install_flows env request ip).1 =
      { static_rule_results :=
          (downstream_result env request ip).static_rule_results ++
            stats_failed_static env request ip,
        dynamic_rule_results :=
          (downstream_result env request ip).dynamic_rule_results ++
            stats_failed_dynamic env request ip } := by
  cases h : request.request_origin <;>
    simp [_install_flows, _install_flows_gx, _install_flows_gy,
      downstream_result, stats_failed_static, stats_failed_dynamic,
      stats_stage_result, passed_static_rule_ids, passed_dynamic_rules, h]

/-- `_install_flows` produces the version bumps, then the stats-stage
events, then the downstream-stage events. -/
theorem install_flows_trace_eq (env : Env) (request : ActivateFlowsRequest)
    (ip : IPAddress) :
    (_install_flows env request ip).2 =
      _update_version request ip ++ stats_stage_trace env request ip ++
        downstream_trace env request ip := by
  cases h : request.request_origin <;>
    simp [_install_flows, _install_flows_gx, _install_flows_gy,
      downstream_trace, stats_stage_trace, stats_failed_static,
      stats_failed_dynamic, stats_stage_result, passed_static_rule_ids,
      passed_dynamic_rules, h]

/-- Counting an element in a mapped list counts its preimages. -/
theorem count_map_eq_countP {α β : Type} [DecidableEq α] [DecidableEq β]
    (f : α → β) (l : List α) (b : β) :
    (l.map f).count b = l.countP fun x => f x == b := by
  induction l with
  | nil => rfl
  | cons a l ih => simp [List.count_cons, List.countP_cons, ih]

/-- `countP` only depends on the predicate's values on the list. -/
theorem countP_eq_of_forall_eq {α : Type} (p q : α → Bool) (l : List α)
    (h : ∀ a ∈ l, p a = q a) : l.countP p = l.countP q := by
  induction l with
  | nil => rfl
  | cons a l ih =>
      simp [List.countP_cons, h a (List.mem_cons_self a l),
        ih fun x hx => h x (List.mem_cons_of_mem a hx)]

/-- When the images under `f` are pairwise distinct, every element occurs at
most once. -/
theorem count_le_one_of_nodup_map {α β : Type} [DecidableEq α]
    [DecidableEq β] (f : α → β) (l : List α) (h : (l.map f).Nodup)
    (a : α) : l.count a ≤ 1 := by
  have h1 : (l.map f).count (f a) ≤ 1 := List.nodup_iff_count_le_one.mp h (f a)
  have h2 : l.count a ≤ (l.map f).count (f a) := by
    rw [count_map_eq_countP]
    unfold List.count
    refine List.countP_mono_left fun x _ hx => ?_
    have hxa : x = a := by simpa using hx
    simp [hxa]
  omega

/-- Version bumps are not downstream `activate_rules` dispatches. -/
theorem update_version_not_downstream (request : ActivateFlowsRequest)
    (ip : IPAddress) :
    ∀ e ∈ _update_version request ip, e.isDownstreamActivate = false := by
  intro e he
  simp [_update_version, List.mem_append, List.mem_map] at he
  rcases he with ⟨x, _, hx⟩ | ⟨x, _, hx⟩ <;> rw [← hx] <;> rfl

/-- Stats failure metrics are not downstream `activate_rules` dispatches. -/
theorem report_stats_not_downstream (res : ActivateFlowsResult)
    (imsi : String) :
    ∀ e ∈ _report_enforcement_stats_failures res imsi,
      e.isDownstreamActivate = false := by
  intro e he
  simp [_report_enforcement_stats_failures, List.mem_map] at he
  rcases he with ⟨x, _, hx⟩ | ⟨x, _, hx⟩ <;> rw [← hx] <;> rfl

/-- The downstream stage trace starts with its `activate_rules` dispatch and
continues with non-dispatch (metric) events only. -/
theorem downstream_trace_shape (env : Env) (request : ActivateFlowsRequest)
    (ip : IPAddress) :
    ∃ dEv rest, downstream_trace env request ip = dEv :: rest ∧
      dEv.isDownstreamActivate = true ∧
      ∀ e ∈ rest, e.isDownstreamActivate = false := by
  cases horig : request.request_origin
  case GX =>
    refine ⟨Event.enfActivate request.sid request.msisdn request.uplink_tunnel
        ip request.apn_ambr (passed_static_rule_ids env request ip)
        (passed_dynamic_rules env request ip),
      _report_enforcement_failures
        (env.enfController request.sid request.msisdn request.uplink_tunnel
          ip request.apn_ambr (passed_static_rule_ids env request ip)
          (passed_dynamic_rules env request ip)) request.sid, ?_, rfl, ?_⟩
    · simp [downstream_trace, horig, _activate_rules_in_enforcement]
    · intro e he
      simp [_report_enforcement_failures, List.mem_map] at he
      rcases he with ⟨x, _, hx⟩ | ⟨x, _, hx⟩ <;> rw [← hx] <;> rfl
  case GY =>
    refine ⟨Event.gyActivate request.sid request.msisdn request.uplink_tunnel
        ip request.apn_ambr (passed_static_rule_ids env request ip)
        (passed_dynamic_rules env request ip), [], ?_, rfl, ?_⟩
    · simp [downstream_trace, horig, _activate_rules_in_gy]
    · intro e he
      simp at he
  case N =>
    refine ⟨Event.gyActivate request.sid request.msisdn request.uplink_tunnel
        ip request.apn_ambr (passed_static_rule_ids env request ip)
        (passed_dynamic_rules env request ip), [], ?_, rfl, ?_⟩
    · simp [downstream_trace, horig, _activate_rules_in_gy]
    · intro e he
      simp at he

/-- The stats stage trace, when the stats app is enabled, starts with the
stats `activate_rules` dispatch followed by its failure metrics. -/
theorem stats_stage_trace_enabled (env : Env)
    (request : ActivateFlowsRequest) (ip : IPAddress)
    (h : env.enabled App.enforcement_stats = true) :
    stats_stage_trace env request ip =
      Event.statsActivate request.sid request.msisdn request.uplink_tunnel
          ip request.apn_ambr request.rule_ids request.dynamic_rules ::
        _report_enforcement_stats_failures (stats_stage_result env request ip)
          request.sid := by
  simp [stats_stage_trace, stats_stage_result,
    _activate_rules_in_enforcement_stats, h]

/-! ### Claim theorems -/

/-- C2: for every activation request and every address family processed
(with the stats app enabled, so that its `activate_rules` dispatch exists),
the per-family trace contains the stats `activate_rules` dispatch strictly
before the downstream controller's `activate_rules` dispatch, and no
downstream dispatch occurs anywhere before the stats dispatch. -/
theorem stats_stage_precedes_downstream (env : Env)
    (request : ActivateFlowsRequest) (ip : IPAddress)
    (h : env.enabled App.enforcement_stats = true) :
    ∃ pre mid post sEv dEv,
      (_install_flows env request ip).2 = pre ++ sEv :: (mid ++ dEv :: post) ∧
      sEv.isStatsActivate = true ∧
      dEv.isDownstreamActivate = true ∧
      (∀ e ∈ pre, e.isDownstreamActivate = false) ∧
      (∀ e ∈ mid, e.isDownstreamActivate = false) := by
  obtain ⟨dEv, rest, hdt, hdev, hrest⟩ := downstream_trace_shape env request ip
  refine ⟨_update_version request ip,
    _report_enforcement_stats_failures (stats_stage_result env request ip)
      request.sid, rest,
    Event.statsActivate request.sid request.msisdn request.uplink_tunnel ip
      request.apn_ambr request.rule_ids request.dynamic_rules,
    dEv, ?_, rfl, hdev,
    update_version_not_downstream request ip,
    report_stats_not_downstream _ _⟩
  rw [install_flows_trace_eq, stats_stage_trace_enabled env request ip h, hdt]
  simp

/-- C2 witness at a concrete deployment, GX request and IPv4 family. -/
theorem stats_stage_precedes_downstream_witness :
    env0.enabled App.enforcement_stats = true ∧
    ∃ pre mid post sEv dEv,
      (_install_flows env0 reqGxAB (IPAddress.v4 "10.0.0.5")).2 =
          pre ++ sEv :: (mid ++ dEv :: post) ∧
      sEv.isStatsActivate = true ∧
      dEv.isDownstreamActivate = true ∧
      (∀ e ∈ pre, e.isDownstreamActivate = false) ∧
      (∀ e ∈ mid, e.isDownstreamActivate = false) :=
  ⟨rfl, stats_stage_precedes_downstream env0 reqGxAB (IPAddress.v4 "10.0.0.5")
    rfl⟩

/-- C5: when both address families are populated, the merged response's
static and dynamic result lists are the IPv4-family results followed by the
IPv6-family results. -/
theorem dual_stack_concatenation (env : Env)
    (request : ActivateFlowsRequest) (h4 : request.ip_addr ≠ "")
    (h6 : request.ipv6_addr ≠ "") :
    (_activate_flows env request).1.static_rule_results =
      (_install_flows env request (IPAddress.v4 request.ip_addr)).1.static_rule_results ++
        (_install_flows env request (IPAddress.v6 request.ipv6_addr)).1.static_rule_results ∧
    (_activate_flows env request).1.dynamic_rule_results =
      (_install_flows env request (IPAddress.v4 request.ip_addr)).1.dynamic_rule_results ++
        (_install_flows env request (IPAddress.v6 request.ipv6_addr)).1.dynamic_rule_results := by
  simp [_activate_flows, h4, h6]

/-- C5 witness at a concrete dual-stack request. -/
theorem dual_stack_concatenation_witness :
    reqDual.ip_addr ≠ "" ∧ reqDual.ipv6_addr ≠ "" ∧
    (_activate_flows env0 reqDual).1.static_rule_results =
      (_install_flows env0 reqDual (IPAddress.v4 reqDual.ip_addr)).1.static_rule_results ++
        (_install_flows env0 reqDual (IPAddress.v6 reqDual.ipv6_addr)).1.static_rule_results :=
  ⟨by decide, by decide,
    (dual_stack_concatenation env0 reqDual (by decide) (by decide)).1⟩

/-- C9: when the stats app is disabled the stats stage returns an empty
outcome, the full requested static and dynamic rule sets are passed
downstream, and the merged per-family outcome equals the downstream
controller's outcome. -/
theorem stats_disabled_passthrough (env : Env)
    (request : ActivateFlowsRequest) (ip : IPAddress)
    (h : env.enabled App.enforcement_stats = false) :
    stats_stage_result env request ip = {} ∧
    passed_static_rule_ids env request ip = request.rule_ids ∧
    passed_dynamic_rules env request ip = request.dynamic_rules ∧
    (_install_flows env request ip).1 = downstream_result env request ip := by
  have h0 : stats_stage_result env request ip = {} := by
    simp [stats_stage_result, _activate_rules_in_enforcement_stats, h]
  refine ⟨h0, ?_, ?_, ?_⟩
  · simp [passed_static_rule_ids, stats_failed_static,
      _retrieve_failed_results, h0, _filter_failed_static_rule_ids]
  · simp [passed_dynamic_rules, stats_failed_dynamic,
      _retrieve_failed_results, h0, _filter_failed_dynamic_rules]
  · rw [install_flows_result_eq]
    simp [stats_failed_static, stats_failed_dynamic,
      _retrieve_failed_results, h0]

/-- C9 witness at a concrete deployment with the stats app disabled. -/
theorem stats_disabled_passthrough_witness :
    envGyFail.enabled App.enforcement_stats = false ∧
    passed_static_rule_ids envGyFail reqGyA (IPAddress.v4 "10.0.0.5") =
      reqGyA.rule_ids ∧
    (_install_flows envGyFail reqGyA (IPAddress.v4 "10.0.0.5")).1 =
      downstream_result envGyFail reqGyA (IPAddress.v4 "10.0.0.5") :=
  ⟨rfl,
    (stats_disabled_passthrough envGyFail reqGyA (IPAddress.v4 "10.0.0.5")
      rfl).2.1,
    (stats_disabled_passthrough envGyFail reqGyA (IPAddress.v4 "10.0.0.5")
      rfl).2.2.2⟩

/-- C10: every deactivation request carrying an IPv6 address writes the
interface-to-prefix mapping, whatever its origin and rule list; and it is
the same write that any activation carrying the same IPv6 address
performs. -/
theorem deactivate_ipv6_prefix_write (env : Env)
    (request : DeactivateFlowsRequest) (h : request.ipv6_addr ≠ "") :
    _update_ipv6_prefix_store env request.ipv6_addr ∈
      _deactivate_flows env request ∧
    ∀ areq : ActivateFlowsRequest, areq.ipv6_addr = request.ipv6_addr →
      _update_ipv6_prefix_store env request.ipv6_addr ∈
        (_activate_flows env areq).2 := by
  constructor
  · simp [_deactivate_flows, h]
  · intro areq ha
    simp [_activate_flows, ha, h]

/-- C10 witness at a concrete GY deactivation with an IPv6 address. -/
theorem deactivate_ipv6_prefix_write_witness :
    reqDeactV6.ipv6_addr ≠ "" ∧
    _update_ipv6_prefix_store env0 reqDeactV6.ipv6_addr ∈
      _deactivate_flows env0 reqDeactV6 :=
  ⟨by decide,
    (deactivate_ipv6_prefix_write env0 reqDeactV6 (by decide)).1⟩

/-- C8: with the UE MAC app enabled, a request whose MAC address is not
exactly 17 characters is rejected with INVALID_ARGUMENT and dispatches
nothing, on both AddUEMacFlow and DeleteUEMacFlow; a 17-character address
passes validation. -/
theorem mac_length_validation (env : Env) (st : ServicerState)
    (request : UEMacFlowRequest) (hen : env.enabled App.ue_mac = true) :
    (request.mac_addr.length ≠ 17 →
      (AddUEMacFlow env st request).status = RpcStatus.INVALID_ARGUMENT ∧
      (AddUEMacFlow env st request).trace = [] ∧
      (DeleteUEMacFlow env st request).status = RpcStatus.INVALID_ARGUMENT ∧
      (DeleteUEMacFlow env st request).trace = []) ∧
    (request.mac_addr.length = 17 →
      (AddUEMacFlow env st request).status = RpcStatus.OK ∧
      (DeleteUEMacFlow env st request).status = RpcStatus.OK) := by
  constructor <;> intro hl <;>
    simp [AddUEMacFlow, DeleteUEMacFlow, hen, hl]

/-- C8 witness: a 5-character MAC is rejected, a 17-character MAC passes. -/
theorem mac_length_validation_witness :
    env0.enabled App.ue_mac = true ∧
    ((AddUEMacFlow env0 st0 reqMacBad).status = RpcStatus.INVALID_ARGUMENT ∧
      (AddUEMacFlow env0 st0 reqMacBad).trace = []) ∧
    (AddUEMacFlow env0 st0 reqMacGood).status = RpcStatus.OK :=
  ⟨rfl,
    ⟨((mac_length_validation env0 st0 reqMacBad rfl).1 (by decide)).1,
      ((mac_length_validation env0 st0 reqMacBad rfl).1 (by decide)).2.1⟩,
    ((mac_length_validation env0 st0 reqMacGood rfl).2 (by decide)).1⟩

/-- C1: if the stats stage reports a rule as FAILURE, that rule is filtered
out of the corresponding rule list passed to the downstream controller
(enforcement for GX, gy otherwise), and — provided the stats stage reports
each rule id at most once and the downstream controller only reports rules
it was passed — the rule appears as FAILURE exactly once in the merged
per-family outcome. -/
theorem stats_failure_filtering (env : Env) (request : ActivateFlowsRequest)
    (ip : IPAddress) (r : String)
    (hnodupS : ((stats_stage_result env request ip).static_rule_results.map
      fun x => x.rule_id).Nodup)
    (hnodupD : ((stats_stage_result env request ip).dynamic_rule_results.map
      fun x => x.rule_id).Nodup)
    (hdsS : ∀ x ∈ (downstream_result env request ip).static_rule_results,
      x.rule_id ∈ passed_static_rule_ids env request ip)
    (hdsD : ∀ x ∈ (downstream_result env request ip).dynamic_rule_results,
      ∃ rule ∈ passed_dynamic_rules env request ip, rule.id = x.rule_id) :
    (({ rule_id := r, result := Outcome.FAILURE } : RuleModResult) ∈
        (stats_stage_result env request ip).static_rule_results →
      r ∉ passed_static_rule_ids env request ip ∧
      (_install_flows env request ip).1.static_rule_results.count
        { rule_id := r, result := Outcome.FAILURE } = 1) ∧
    (({ rule_id := r, result := Outcome.FAILURE } : RuleModResult) ∈
        (stats_stage_result env request ip).dynamic_rule_results →
      (∀ rule ∈ passed_dynamic_rules env request ip, rule.id ≠ r) ∧
      (_install_flows env request ip).1.dynamic_rule_results.count
        { rule_id := r, result := Outcome.FAILURE } = 1) := by
  constructor
  · intro hmem
    have hfail : ({ rule_id := r, result := Outcome.FAILURE } : RuleModResult) ∈
        stats_failed_static env request ip := by
      simp [stats_failed_static, _retrieve_failed_results, List.mem_filter]
      exact hmem
    have hrid : r ∈ (stats_failed_static env request ip).map
        fun x => x.rule_id :=
      List.mem_map.mpr ⟨_, hfail, rfl⟩
    have hnp : r ∉ passed_static_rule_ids env request ip := by
      intro hr
      have h2 : r ∈ request.rule_ids ∧
          ∀ x ∈ stats_failed_static env request ip, ¬x.rule_id = r := by
        simpa [passed_static_rule_ids, _filter_failed_static_rule_ids]
          using hr
      exact h2.2 _ hfail rfl
    refine ⟨hnp, ?_⟩
    rw [install_flows_result_eq]
    have hds0 : (downstream_result env request ip).static_rule_results.count
        { rule_id := r, result := Outcome.FAILURE } = 0 := by
      apply List.count_eq_zero.mpr
      intro hc
      exact hnp (hdsS _ hc)
    have hpos : 0 <
        (stats_stage_result env request ip).static_rule_results.count
          { rule_id := r, result := Outcome.FAILURE } :=
      List.count_pos_iff.mpr hmem
    have hle : (stats_stage_result env request ip).static_rule_results.count
        { rule_id := r, result := Outcome.FAILURE } ≤ 1 :=
      count_le_one_of_nodup_map _ _ hnodupS _
    have hflt : (stats_failed_static env request ip).count
        { rule_id := r, result := Outcome.FAILURE } =
        (stats_stage_result env request ip).static_rule_results.count
          { rule_id := r, result := Outcome.FAILURE } := by
      simp only [stats_failed_static, _retrieve_failed_results]
      exact List.count_filter (by rfl)
    simp only [List.count_append, hds0, hflt]
    omega
  · intro hmem
    have hfail : ({ rule_id := r, result := Outcome.FAILURE } : RuleModResult) ∈
        stats_failed_dynamic env request ip := by
      simp [stats_failed_dynamic, _retrieve_failed_results, List.mem_filter]
      exact hmem
    have hrid : r ∈ (stats_failed_dynamic env request ip).map
        fun x => x.rule_id :=
      List.mem_map.mpr ⟨_, hfail, rfl⟩
    have habs : ∀ rule ∈ passed_dynamic_rules env request ip, rule.id ≠ r := by
      intro rule hrule heq
      have h2 : rule ∈ request.dynamic_rules ∧
          ∀ x ∈ stats_failed_dynamic env request ip, ¬x.rule_id = rule.id := by
        simpa [passed_dynamic_rules, _filter_failed_dynamic_rules]
          using hrule
      exact h2.2 _ hfail heq.symm
    refine ⟨habs, ?_⟩
    rw [install_flows_result_eq]
    have hds0 : (downstream_result env request ip).dynamic_rule_results.count
        { rule_id := r, result := Outcome.FAILURE } = 0 := by
      apply List.count_eq_zero.mpr
      intro hc
      obtain ⟨rule, hrule, hid⟩ := hdsD _ hc
      exact habs rule hrule hid
    have hpos : 0 <
        (stats_stage_result env request ip).dynamic_rule_results.count
          { rule_id := r, result := Outcome.FAILURE } :=
      List.count_pos_iff.mpr hmem
    have hle : (stats_stage_result env request ip).dynamic_rule_results.count
        { rule_id := r, result := Outcome.FAILURE } ≤ 1 :=
      count_le_one_of_nodup_map _ _ hnodupD _
    have hflt : (stats_failed_dynamic env request ip).count
        { rule_id := r, result := Outcome.FAILURE } =
        (stats_stage_result env request ip).dynamic_rule_results.count
          { rule_id := r, result := Outcome.FAILURE } := by
      simp only [stats_failed_dynamic, _retrieve_failed_results]
      exact List.count_filter (by rfl)
    simp only [List.count_append, hds0, hflt]
    omega

/-- C1 witness: stats double fails `ruleB` of a GX request; `ruleB` is not
passed downstream and appears as FAILURE exactly once in the merged
outcome. -/
theorem stats_failure_filtering_witness :
    ({ rule_id := "ruleB", result := Outcome.FAILURE } : RuleModResult) ∈
      (stats_stage_result envStatsFailB reqGxAB
        (IPAddress.v4 "10.0.0.5")).static_rule_results ∧
    "ruleB" ∉ passed_static_rule_ids envStatsFailB reqGxAB
      (IPAddress.v4 "10.0.0.5") ∧
    (_install_flows envStatsFailB reqGxAB
        (IPAddress.v4 "10.0.0.5")).1.static_rule_results.count
      { rule_id := "ruleB", result := Outcome.FAILURE } = 1 :=
  ⟨by decide,
    ((stats_failure_filtering envStatsFailB reqGxAB (IPAddress.v4 "10.0.0.5")
      "ruleB" (by decide) (by decide) (by decide) (by decide)).1
        (by decide)).1,
    ((stats_failure_filtering envStatsFailB reqGxAB (IPAddress.v4 "10.0.0.5")
      "ruleB" (by decide) (by decide) (by decide) (by decide)).1
        (by decide)).2⟩

/-- C4 counterexample: a GY deactivation with zero rule ids processes the
IPv4 family and dispatches the gy controller, yet performs no version bump
(in particular no session-wildcard bump) at all. -/
theorem gy_wildcard_no_bump_counterexample :
    Event.gyDeactivate "IMSI001" (IPAddress.v4 "10.0.0.5") [] ∈
      _deactivate_flows env0 reqGyDeactWild ∧
    ∀ e ∈ _deactivate_flows env0 reqGyDeactWild, e.isVersionBump = false := by
  decide

/-- C4 amended: with zero explicit rule ids and any address family, a
GX-origin deactivation bumps the session wildcard exactly once before the
enforcement deactivate dispatch, while a GY-origin deactivation performs no
version bump at all before the gy deactivate dispatch. -/
theorem wildcard_bump_per_origin (request : DeactivateFlowsRequest)
    (ip : IPAddress) (h : request.rule_ids = []) :
    _deactivate_flows_gx request ip =
      Event.updateVersion request.sid ip none ::
        ((if request.remove_default_drop_flows then
            [Event.statsDeactivateDefault request.sid ip]
          else []) ++
          [Event.enfDeactivate request.sid ip []]) ∧
    _deactivate_flows_gy request ip =
      [Event.gyDeactivate request.sid ip []] := by
  simp [_deactivate_flows_gx, _deactivate_flows_gy, h]

/-- C4 amended witness at a concrete wildcard deactivation. -/
theorem wildcard_bump_per_origin_witness :
    reqGxDeactWild.rule_ids = [] ∧
    _deactivate_flows_gx reqGxDeactWild (IPAddress.v4 "10.0.0.5") =
      Event.updateVersion reqGxDeactWild.sid (IPAddress.v4 "10.0.0.5") none ::
        ((if reqGxDeactWild.remove_default_drop_flows then
            [Event.statsDeactivateDefault reqGxDeactWild.sid
              (IPAddress.v4 "10.0.0.5")]
          else []) ++
          [Event.enfDeactivate reqGxDeactWild.sid
            (IPAddress.v4 "10.0.0.5") []]) ∧
    _deactivate_flows_gy reqGxDeactWild (IPAddress.v4 "10.0.0.5") =
      [Event.gyDeactivate reqGxDeactWild.sid (IPAddress.v4 "10.0.0.5") []] :=
  ⟨rfl,
    (wildcard_bump_per_origin reqGxDeactWild (IPAddress.v4 "10.0.0.5") rfl).1,
    (wildcard_bump_per_origin reqGxDeactWild (IPAddress.v4 "10.0.0.5") rfl).2⟩

/-- No failure metric event sits among the version bumps. -/
theorem count_metric_in_update_version (request : ActivateFlowsRequest)
    (ip : IPAddress) (r imsi : String) :
    (_update_version request ip).count (Event.metricStatsFail r imsi) = 0 ∧
    (_update_version request ip).count (Event.metricEnfFail r imsi) = 0 := by
  constructor <;>
    · apply List.count_eq_zero.mpr
      intro hmem
      simp [_update_version, List.mem_append, List.mem_map] at hmem

/-- Counting one subscriber's stats-failure metric among the emitted stats
metrics counts the non-SUCCESS entries with that rule id. -/
theorem count_metricStats_report (res : ActivateFlowsResult)
    (imsi r : String) :
    (_report_enforcement_stats_failures res imsi).count
        (Event.metricStatsFail r imsi) =
      (res.static_rule_results ++ res.dynamic_rule_results).countP
        fun x => x.rule_id == r && !(x.result == Outcome.SUCCESS) := by
  unfold _report_enforcement_stats_failures
  rw [count_map_eq_countP, List.countP_filter]
  apply countP_eq_of_forall_eq
  intro a _
  by_cases hra : a.rule_id = r
  · simp [hra]
  · have e1 : (Event.metricStatsFail a.rule_id imsi ==
        Event.metricStatsFail r imsi) = false := by
      refine beq_eq_false_iff_ne.mpr fun hcon => hra ?_
      exact ((Event.metricStatsFail.injEq _ _ _ _).mp hcon).1
    have e2 : (a.rule_id == r) = false := beq_eq_false_iff_ne.mpr hra
    rw [e1, e2]

/-- Counting one subscriber's enforcement-failure metric among the emitted
enforcement metrics counts the non-SUCCESS entries with that rule id. -/
theorem count_metricEnf_report (res : ActivateFlowsResult) (imsi r : String) :
    (_report_enforcement_failures res imsi).count
        (Event.metricEnfFail r imsi) =
      (res.static_rule_results ++ res.dynamic_rule_results).countP
        fun x => x.rule_id == r && !(x.result == Outcome.SUCCESS) := by
  unfold _report_enforcement_failures
  rw [count_map_eq_countP, List.countP_filter]
  apply countP_eq_of_forall_eq
  intro a _
  by_cases hra : a.rule_id = r
  · simp [hra]
  · have e1 : (Event.metricEnfFail a.rule_id imsi ==
        Event.metricEnfFail r imsi) = false := by
      refine beq_eq_false_iff_ne.mpr fun hcon => hra ?_
      exact ((Event.metricEnfFail.injEq _ _ _ _).mp hcon).1
    have e2 : (a.rule_id == r) = false := beq_eq_false_iff_ne.mpr hra
    rw [e1, e2]

/-- The stats stage emits exactly the stats-failure metrics of its own
outcome, and never an enforcement-failure metric. -/
theorem count_metric_in_stats_trace (env : Env)
    (request : ActivateFlowsRequest) (ip : IPAddress) (r imsi : String) :
    (stats_stage_trace env request ip).count
        (Event.metricStatsFail r request.sid) =
      ((stats_stage_result env request ip).static_rule_results ++
        (stats_stage_result env request ip).dynamic_rule_results).countP
        (fun x => x.rule_id == r && !(x.result == Outcome.SUCCESS)) ∧
    (stats_stage_trace env request ip).count
        (Event.metricEnfFail r imsi) = 0 := by
  by_cases h : env.enabled App.enforcement_stats = true
  · rw [stats_stage_trace_enabled env request ip h]
    constructor
    · rw [List.count_cons, count_metricStats_report]
      simp
    · rw [List.count_cons]
      have h0 : (_report_enforcement_stats_failures
          (stats_stage_result env request ip) request.sid).count
            (Event.metricEnfFail r imsi) = 0 := by
        apply List.count_eq_zero.mpr
        intro hmem
        simp [_report_enforcement_stats_failures, List.mem_map] at hmem
      simp [h0]
  · rw [Bool.not_eq_true] at h
    constructor <;>
      simp [stats_stage_trace, stats_stage_result,
        _activate_rules_in_enforcement_stats, h]

/-- The downstream stage never emits a stats-failure metric; for GX origin
it emits exactly the enforcement-failure metrics of the downstream outcome,
and for any other origin it emits no metric at all. -/
theorem count_metric_in_downstream_trace (env : Env)
    (request : ActivateFlowsRequest) (ip : IPAddress) (r imsi : String) :
    (downstream_trace env request ip).count
        (Event.metricStatsFail r imsi) = 0 ∧
    (request.request_origin = OriginType.GX →
      (downstream_trace env request ip).count
          (Event.metricEnfFail r request.sid) =
        ((downstream_result env request ip).static_rule_results ++
          (downstream_result env request ip).dynamic_rule_results).countP
          (fun x => x.rule_id == r && !(x.result == Outcome.SUCCESS))) ∧
    (request.request_origin ≠ OriginType.GX →
      (downstream_trace env request ip).count
          (Event.metricEnfFail r imsi) = 0) := by
  refine ⟨?_, ?_, ?_⟩
  · apply List.count_eq_zero.mpr
    intro hmem
    cases horig : request.request_origin <;>
      simp [downstream_trace, horig, _activate_rules_in_enforcement,
        _activate_rules_in_gy, _report_enforcement_failures,
        List.mem_map] at hmem
  · intro horig
    rw [show downstream_trace env request ip =
        Event.enfActivate request.sid request.msisdn request.uplink_tunnel ip
            request.apn_ambr (passed_static_rule_ids env request ip)
            (passed_dynamic_rules env request ip) ::
          _report_enforcement_failures (downstream_result env request ip)
            request.sid by
      simp [downstream_trace, downstream_result, horig,
        _activate_rules_in_enforcement]]
    rw [List.count_cons, count_metricEnf_report]
    simp
  · intro horig
    apply List.count_eq_zero.mpr
    intro hmem
    cases ho : request.request_origin
    case GX => exact horig ho
    all_goals
      simp [downstream_trace, ho, _activate_rules_in_gy] at hmem

/-- C7 counterexample: with the stats app disabled and a gy controller that
fails the requested rule, the merged GY outcome reports the rule as FAILURE
but the trace contains no failure-metric increment of either counter. -/
theorem gy_failure_no_metric_counterexample :
    ({ rule_id := "ruleA", result := Outcome.FAILURE } : RuleModResult) ∈
      (_install_flows envGyFail reqGyA
        (IPAddress.v4 "10.0.0.5")).1.static_rule_results ∧
    ∀ e ∈ (_install_flows envGyFail reqGyA (IPAddress.v4 "10.0.0.5")).2,
      e.isFailureMetric = false := by
  decide

/-- C7 amended: per family, the trace increments the dedicated stats
counter once per non-SUCCESS entry of the stats-stage outcome with the
given rule id; for GX origin it increments the distinct enforcement counter
once per non-SUCCESS entry of the downstream outcome; for GY (billing)
origin no downstream failure metric is emitted at all. -/
theorem failure_metric_per_stage (env : Env)
    (request : ActivateFlowsRequest) (ip : IPAddress) (r : String) :
    ((_install_flows env request ip).2.count
        (Event.metricStatsFail r request.sid) =
      ((stats_stage_result env request ip).static_rule_results ++
        (stats_stage_result env request ip).dynamic_rule_results).countP
        (fun x => x.rule_id == r && !(x.result == Outcome.SUCCESS))) ∧
    (request.request_origin = OriginType.GX →
      (_install_flows env request ip).2.count
          (Event.metricEnfFail r request.sid) =
        ((downstream_result env request ip).static_rule_results ++
          (downstream_result env request ip).dynamic_rule_results).countP
          (fun x => x.rule_id == r && !(x.result == Outcome.SUCCESS))) ∧
    (request.request_origin ≠ OriginType.GX →
      (_install_flows env request ip).2.count
          (Event.metricEnfFail r request.sid) = 0) := by
  rw [install_flows_trace_eq]
  obtain ⟨hv1, hv2⟩ := count_metric_in_update_version request ip r request.sid
  obtain ⟨hs1, hs2⟩ := count_metric_in_stats_trace env request ip r request.sid
  obtain ⟨hd1, hd2, hd3⟩ :=
    count_metric_in_downstream_trace env request ip r request.sid
  refine ⟨?_, ?_, ?_⟩
  · simp [List.count_append, hv1, hs1, hd1]
  · intro horig
    simp [List.count_append, hv2, hs2, hd2 horig]
  · intro horig
    simp [List.count_append, hv2, hs2, hd3 horig]

/-- C7 amended witness: stats counter incremented once for the stats-failed
rule of a GX activation; enforcement counter matches the enforcement
outcome. -/
theorem failure_metric_per_stage_witness :
    ((_install_flows envStatsFailB reqGxAB (IPAddress.v4 "10.0.0.5")).2.count
        (Event.metricStatsFail "ruleB" reqGxAB.sid) =
      ((stats_stage_result envStatsFailB reqGxAB
          (IPAddress.v4 "10.0.0.5")).static_rule_results ++
        (stats_stage_result envStatsFailB reqGxAB
          (IPAddress.v4 "10.0.0.5")).dynamic_rule_results).countP
        (fun x => x.rule_id == "ruleB" &&
          !(x.result == Outcome.SUCCESS))) ∧
    (_install_flows envStatsFailB reqGxAB (IPAddress.v4 "10.0.0.5")).2.count
        (Event.metricEnfFail "ruleB" reqGxAB.sid) =
      ((downstream_result envStatsFailB reqGxAB
          (IPAddress.v4 "10.0.0.5")).static_rule_results ++
        (downstream_result envStatsFailB reqGxAB
          (IPAddress.v4 "10.0.0.5")).dynamic_rule_results).countP
        (fun x => x.rule_id == "ruleB" && !(x.result == Outcome.SUCCESS)) :=
  ⟨(failure_metric_per_stage envStatsFailB reqGxAB (IPAddress.v4 "10.0.0.5")
      "ruleB").1,
    (failure_metric_per_stage envStatsFailB reqGxAB (IPAddress.v4 "10.0.0.5")
      "ruleB").2.1 rfl⟩

/-- C6 counterexample: with the IPFIX capability disabled, `UpdateIPFIXFlow`
is not rejected with an unavailable signal — it returns a normal
`FlowResponse`. -/
theorem ipfix_no_unavailable_counterexample :
    envAllDisabled.enabled App.ipfix = false ∧
    (handleOp envAllDisabled st0
      (Op.updateIPFIXFlow { sid := "IMSI001" })).1 = RpcStatus.OK ∧
    (handleOp envAllDisabled st0
      (Op.updateIPFIXFlow { sid := "IMSI001" })).1 ≠ RpcStatus.UNAVAILABLE :=
  ⟨rfl, rfl, by decide⟩

/-- C6 amended: every operation whose handler gates on a capability — all of
them except `SetupDefaultControllers` and `GetAllTableAssignments`, which
check none, and `UpdateIPFIXFlow`, which checks but does not reject — is
rejected with UNAVAILABLE, dispatching nothing and leaving the state
untouched, when that capability is disabled; `UpdateIPFIXFlow` with IPFIX
disabled returns a normal response while also dispatching nothing. -/
theorem capability_gating_amended (env : Env) (st : ServicerState) (op : Op)
    (a : App) (hg : gatedApp op = some a) (hd : env.enabled a = false) :
    handleOp env st op = (RpcStatus.UNAVAILABLE, [], st) ∧
    ∀ req : UpdateIPFIXFlowRequest, env.enabled App.ipfix = false →
      handleOp env st (Op.updateIPFIXFlow req) = (RpcStatus.OK, [], st) := by
  constructor
  · cases op <;> simp [gatedApp] at hg <;> subst hg <;>
      simp [handleOp, RpcOut.summary, SetupPolicyFlows, ActivateFlows,
        DeactivateFlows, GetPolicyUsage, CreateFlow, RemoveFlow,
        UpdateFlowStats, SetupUEMacFlows, AddUEMacFlow, DeleteUEMacFlow,
        SetupQuotaFlows, UpdateSubscriberQuotaState, hd]
  · intro req hipfix
    simp [handleOp, RpcOut.summary, UpdateIPFIXFlow, hipfix]

/-- C6 amended witness: `GetPolicyUsage` with the stats app disabled. -/
theorem capability_gating_amended_witness :
    gatedApp Op.getPolicyUsage = some App.enforcement_stats ∧
    envAllDisabled.enabled App.enforcement_stats = false ∧
    handleOp envAllDisabled st0 Op.getPolicyUsage =
      (RpcStatus.UNAVAILABLE, [], st0) :=
  ⟨rfl, rfl,
    (capability_gating_amended envAllDisabled st0 Op.getPolicyUsage
      App.enforcement_stats rfl rfl).1⟩

/-- A fenced epoch check returns the last known result and leaves the group
state unchanged. -/
theorem check_epoch_fenced {epoch : Nat} {gst : GroupState}
    (h : fencedAt epoch gst = true) :
    check_setup_request_epoch epoch gst = (some gst.lastResult, gst) := by
  unfold fencedAt at h
  unfold check_setup_request_epoch
  cases heq : gst.lastEpoch with
  | none => rw [heq] at h; simp at h
  | some last =>
      rw [heq] at h
      have hlt : ¬last < epoch := by simpa using h
      simp [hlt]

/-- An accepted epoch check records the epoch and returns nothing. -/
theorem check_epoch_open {epoch : Nat} {gst : GroupState}
    (h : fencedAt epoch gst = false) :
    check_setup_request_epoch epoch gst =
      (none, { gst with lastEpoch := some epoch }) := by
  unfold fencedAt at h
  unfold check_setup_request_epoch
  cases heq : gst.lastEpoch with
  | none => simp
  | some last =>
      rw [heq] at h
      have hlt : last < epoch := by simpa using h
      simp [hlt]

/-- Pointwise description of `setGroup`. -/
theorem setGroup_groups (st : ServicerState) (g g' : CtrlGroup)
    (gst : GroupState) :
    (st.setGroup g gst).groups g' = if g' = g then gst else st.groups g' :=
  rfl

/-- Writing back a group's own state changes nothing. -/
theorem setGroup_self_groups (st : ServicerState) (g g' : CtrlGroup) :
    (st.setGroup g (st.groups g)).groups g' = st.groups g' := by
  rw [setGroup_groups]
  by_cases h : g' = g
  · subst h; rw [if_pos rfl]
  · rw [if_neg h]

/-- C3 counterexample: epoch 3 is not newer than the enforcement group's
last accepted epoch 5, so the request is fenced (returns the enforcement
group's prior result, dispatches nothing) — yet the gy group, checked
first and accepting, has its recorded epoch mutated from 1 to 3. -/
theorem setup_fencing_mutation_counterexample :
    fencedAt reqSetup3.epoch (stFence.groups CtrlGroup.enforcer) = true ∧
    (SetupPolicyFlows env0 stFence reqSetup3).response =
      some { result := 9 } ∧
    (SetupPolicyFlows env0 stFence reqSetup3).trace = [] ∧
    (stFence.groups CtrlGroup.gy_app).lastEpoch = some 1 ∧
    ((SetupPolicyFlows env0 stFence reqSetup3).state.groups
      CtrlGroup.gy_app).lastEpoch = some 3 := by
  decide

/-- C3 amended: when some group of the pipeline fences the epoch, the
request returns a `SetupFlowsResult` carrying the FIRST fenced group's last
known result, no restart-reconciliation entry point is dispatched, every
group that is itself fenced keeps its state, and the only mutation is the
epoch recording of the groups checked (and accepting) before the first
fenced one; `SetupDefaultControllers`, whose pipeline is the single inout
group, additionally mutates nothing at all when fenced. -/
theorem setup_fencing_amended (env : Env) (st : ServicerState)
    (req : SetupPolicyRequest) (g : CtrlGroup)
    (henf : env.enabled App.enforcement = true)
    (hg : policyPipeline.find?
      (fun g' => fencedAt req.epoch (st.groups g')) = some g) :
    (SetupPolicyFlows env st req).response =
      some { result := (st.groups g).lastResult } ∧
    (SetupPolicyFlows env st req).trace = [] ∧
    (∀ g', fencedAt req.epoch (st.groups g') = true →
      (SetupPolicyFlows env st req).state.groups g' = st.groups g') ∧
    (∀ g', (SetupPolicyFlows env st req).state.groups g' = st.groups g' ∨
      (SetupPolicyFlows env st req).state.groups g' =
        { st.groups g' with lastEpoch := some req.epoch }) ∧
    (∀ dreq : SetupDefaultRequest,
      fencedAt dreq.epoch (st.groups CtrlGroup.inout) = true →
      (SetupDefaultControllers st dreq).response =
        some { result := (st.groups CtrlGroup.inout).lastResult } ∧
      (SetupDefaultControllers st dreq).trace = [] ∧
      ∀ g', (SetupDefaultControllers st dreq).state.groups g' =
        st.groups g') := by
  have hinout : ∀ dreq : SetupDefaultRequest,
      fencedAt dreq.epoch (st.groups CtrlGroup.inout) = true →
      (SetupDefaultControllers st dreq).response =
        some { result := (st.groups CtrlGroup.inout).lastResult } ∧
      (SetupDefaultControllers st dreq).trace = [] ∧
      ∀ g', (SetupDefaultControllers st dreq).state.groups g' =
        st.groups g' := by
    intro dreq hf
    have hc := check_epoch_fenced hf
    refine ⟨?_, ?_, ?_⟩ <;>
      simp [SetupDefaultControllers, hc, setGroup_self_groups]
  cases h1 : fencedAt req.epoch (st.groups CtrlGroup.gy_app) with
  | true =>
      have hge : CtrlGroup.gy_app = g := by
        simpa [policyPipeline, List.find?, h1] using hg
      subst hge
      have hloop : checkEpochLoop req.epoch policyPipeline st =
          (some (st.groups CtrlGroup.gy_app).lastResult,
            st.setGroup CtrlGroup.gy_app (st.groups CtrlGroup.gy_app)) := by
        simp [policyPipeline, checkEpochLoop, check_epoch_fenced h1]
      have hout : SetupPolicyFlows env st req =
          { response := some { result := (st.groups CtrlGroup.gy_app).lastResult },
            status := RpcStatus.OK, trace := [],
            state := st.setGroup CtrlGroup.gy_app
              (st.groups CtrlGroup.gy_app) } := by
        simp [SetupPolicyFlows, henf, hloop]
      refine ⟨by rw [hout], by rw [hout], ?_, ?_, hinout⟩
      · intro g' _
        rw [hout]
        exact setGroup_self_groups st CtrlGroup.gy_app g'
      · intro g'
        rw [hout]
        exact Or.inl (setGroup_self_groups st CtrlGroup.gy_app g')
  | false =>
      have e1 := check_epoch_open h1
      cases h2 : fencedAt req.epoch (st.groups CtrlGroup.enforcer) with
      | true =>
          have hge : CtrlGroup.enforcer = g := by
            simpa [policyPipeline, List.find?, h1, h2] using hg
          subst hge
          have hloop : checkEpochLoop req.epoch policyPipeline st =
              (some (st.groups CtrlGroup.enforcer).lastResult,
                (st.setGroup CtrlGroup.gy_app
                    { st.groups CtrlGroup.gy_app with
                      lastEpoch := some req.epoch }).setGroup
                  CtrlGroup.enforcer (st.groups CtrlGroup.enforcer)) := by
            simp [policyPipeline, checkEpochLoop, e1, setGroup_groups,
              check_epoch_fenced h2]
          have hout : SetupPolicyFlows env st req =
              { response :=
                  some { result := (st.groups CtrlGroup.enforcer).lastResult },
                status := RpcStatus.OK, trace := [],
                state := (st.setGroup CtrlGroup.gy_app
                    { st.groups CtrlGroup.gy_app with
                      lastEpoch := some req.epoch }).setGroup
                  CtrlGroup.enforcer (st.groups CtrlGroup.enforcer) } := by
            simp [SetupPolicyFlows, henf, hloop]
          refine ⟨by rw [hout], by rw [hout], ?_, ?_, hinout⟩
          · intro g' hf
            rw [hout, setGroup_groups, setGroup_groups]
            by_cases hE : g' = CtrlGroup.enforcer
            · rw [if_pos hE, hE]
            · rw [if_neg hE]
              by_cases hG : g' = CtrlGroup.gy_app
              · exfalso
                rw [hG, h1] at hf
                exact Bool.noConfusion hf
              · rw [if_neg hG]
          · intro g'
            rw [hout, setGroup_groups, setGroup_groups]
            by_cases hE : g' = CtrlGroup.enforcer
            · rw [if_pos hE, hE]
              exact Or.inl rfl
            · rw [if_neg hE]
              by_cases hG : g' = CtrlGroup.gy_app
              · rw [if_pos hG, hG]
                exact Or.inr rfl
              · rw [if_neg hG]
                exact Or.inl rfl
      | false =>
          have e2 := check_epoch_open h2
          cases h3 : fencedAt req.epoch
              (st.groups CtrlGroup.enforcement_stats) with
          | true =>
              have hge : CtrlGroup.enforcement_stats = g := by
                simpa [policyPipeline, List.find?, h1, h2, h3] using hg
              subst hge
              have hloop : checkEpochLoop req.epoch policyPipeline st =
                  (some (st.groups CtrlGroup.enforcement_stats).lastResult,
                    ((st.setGroup CtrlGroup.gy_app
                        { st.groups CtrlGroup.gy_app with
                          lastEpoch := some req.epoch }).setGroup
                      CtrlGroup.enforcer
                        { st.groups CtrlGroup.enforcer with
                          lastEpoch := some req.epoch }).setGroup
                      CtrlGroup.enforcement_stats
                      (st.groups CtrlGroup.enforcement_stats)) := by
                simp [policyPipeline, checkEpochLoop, e1, e2,
                  setGroup_groups, check_epoch_fenced h3]
              have hout : SetupPolicyFlows env st req =
                  { response := some { result :=
                      (st.groups CtrlGroup.enforcement_stats).lastResult },
                    status := RpcStatus.OK, trace := [],
                    state := ((st.setGroup CtrlGroup.gy_app
                        { st.groups CtrlGroup.gy_app with
                          lastEpoch := some req.epoch }).setGroup
                      CtrlGroup.enforcer
                        { st.groups CtrlGroup.enforcer with
                          lastEpoch := some req.epoch }).setGroup
                      CtrlGroup.enforcement_stats
                      (st.groups CtrlGroup.enforcement_stats) } := by
                simp [SetupPolicyFlows, henf, hloop]
              refine ⟨by rw [hout], by rw [hout], ?_, ?_, hinout⟩
              · intro g' hf
                rw [hout, setGroup_groups, setGroup_groups, setGroup_groups]
                by_cases hS : g' = CtrlGroup.enforcement_stats
                · rw [if_pos hS, hS]
                · rw [if_neg hS]
                  by_cases hE : g' = CtrlGroup.enforcer
                  · exfalso
                    rw [hE, h2] at hf
                    exact Bool.noConfusion hf
                  · rw [if_neg hE]
                    by_cases hG : g' = CtrlGroup.gy_app
                    · exfalso
                      rw [hG, h1] at hf
                      exact Bool.noConfusion hf
                    · rw [if_neg hG]
              · intro g'
                rw [hout, setGroup_groups, setGroup_groups, setGroup_groups]
                by_cases hS : g' = CtrlGroup.enforcement_stats
                · rw [if_pos hS, hS]
                  exact Or.inl rfl
                · rw [if_neg hS]
                  by_cases hE : g' = CtrlGroup.enforcer
                  · rw [if_pos hE, hE]
                    exact Or.inr rfl
                  · rw [if_neg hE]
                    by_cases hG : g' = CtrlGroup.gy_app
                    · rw [if_pos hG, hG]
                      exact Or.inr rfl
                    · rw [if_neg hG]
                      exact Or.inl rfl
          | false =>
              exfalso
              simp [policyPipeline, List.find?, h1, h2, h3] at hg

/-- C3 amended witness: epoch 3 against gy(last 1) / enforcement(last 5). -/
theorem setup_fencing_amended_witness :
    env0.enabled App.enforcement = true ∧
    policyPipeline.find?
        (fun g' => fencedAt reqSetup3.epoch (stFence.groups g')) =
      some CtrlGroup.enforcer ∧
    (SetupPolicyFlows env0 stFence reqSetup3).response =
      some { result := (stFence.groups CtrlGroup.enforcer).lastResult } ∧
    (SetupPolicyFlows env0 stFence reqSetup3).trace = [] :=
  ⟨rfl, by decide,
    (setup_fencing_amended env0 stFence reqSetup3 CtrlGroup.enforcer rfl
      (by decide)).1,
    (setup_fencing_amended env0 stFence reqSetup3 CtrlGroup.enforcer rfl
      (by decide)).2.1⟩
